import Mathlib

/-!
# Verification of the risk scoring, SLA deadline and compliance-validity engine

This file is a shallow embedding, in Lean 4, of the core calculation logic of
a workplace-safety (İSG) tracking dashboard written in TypeScript/React.
The embedded functions are `getRiskClass`, `calculateSLADate`,
`calculateValidity`, `isOverdue`, `getThresholdsForLocation`, the dashboard
statistic `overdueActionsCount`, the sample data `SAMPLE_RISKS`, and the
hazard-record construction used by the AI-ingestion path (`mkNewRisk`).

Modelling conventions:

* JavaScript `number` values that the engine manipulates (risk scores,
  thresholds, Fine-Kinney factors, day counts) are integers in practice and
  are modelled as `Int`.
* A JavaScript `Date` is modelled by its internal timestamp: milliseconds
  since the Unix epoch, as an `Int`.  The host's local time zone is taken to
  be UTC (offset 0), so local calendar components and UTC components agree;
  every property proved here is about calendar-day arithmetic and is
  insensitive to a fixed offset.
* `new Date()` — the implicit read of the global wall clock that the source
  performs inside `calculateSLADate`, `calculateValidity` and `isOverdue` —
  is modelled by an explicit `clockNow : Int` argument holding the clock's
  value at call time.
* Calendar conversion follows ECMAScript `MakeDay`/`YearFromTime` semantics:
  `daysFromCivil` maps a (proleptic Gregorian) year/month/day to a day
  number, and `civilFromDays` inverts it.  `MakeDay` is linear in the day
  argument, which is what makes an out-of-range day-of-month (such as
  Feb 29 + 1 year) normalize onto the following days, exactly as in JS.
* `Math.ceil(diffTime / msPerDay)` is modelled as exact integer ceiling
  division (`jsCeilDiv`).  For timestamps within the representable Date
  range the float quotient is within 2⁻³⁰ of the true rational, while the
  true quotient is never closer than 1/86400000 to a non-attained integer,
  so the float ceiling and the exact ceiling agree.
* Strings that cannot be parsed by `new Date(s)` yield an Invalid Date whose
  arithmetic is NaN-poisoned; `parseYmd` returns `Option`, and the one
  consumer that can observe a NaN-poisoned result (`calculateValidity`)
  returns `Option` with `none` standing for that poisoned object.
-/

/-! ## Calendar-day arithmetic (ECMAScript Date semantics) -/

/-- Milliseconds per day, the constant `1000 * 60 * 60 * 24` of the source. -/
def msPerDay : Int := 86400000

/-- Shifted year used by the civil-calendar conversion: years run March to
February so that the leap day is the last day of the shifted year. -/
def dY1 (y m : Int) : Int := if m ≤ 2 then y - 1 else y

/-- Year of 400-year era of the shifted year. -/
def dYoe (y m : Int) : Int := dY1 y m - dY1 y m / 400 * 400

/-- Day of the March-based year for month `m`, day `d`. -/
def dDoy (m d : Int) : Int := (153 * (if m > 2 then m - 3 else m + 9) + 2) / 5 + d - 1

/-- Day of the 400-year era. -/
def dDoe (y m d : Int) : Int := 365 * dYoe y m + dYoe y m / 4 - dYoe y m / 100 + dDoy m d

/-- Day number (days since 1970-01-01) of the civil date `y-m-d`.  Linear in
`d`, as ECMAScript `MakeDay` is, so out-of-range day values normalize. -/
def daysFromCivil (y m d : Int) : Int :=
  dY1 y m / 400 * 146097 + dDoe y m d - 719468

/-- 400-year era containing day number `z`. -/
def cEra (z : Int) : Int := (z + 719468) / 146097

/-- Day of era of day number `z`. -/
def cDoe (z : Int) : Int := z + 719468 - cEra z * 146097

/-- Year of era of day number `z`. -/
def cYoe (z : Int) : Int := (cDoe z - cDoe z / 1460 + cDoe z / 36524 - cDoe z / 146096) / 365

/-- Day of the March-based year of day number `z`. -/
def cDoy (z : Int) : Int := cDoe z - (365 * cYoe z + cYoe z / 4 - cYoe z / 100)

/-- March-based month index (0 = March, …, 11 = February) of day number `z`. -/
def cMp (z : Int) : Int := (5 * cDoy z + 2) / 153

/-- Civil day of month of day number `z`. -/
def cDay (z : Int) : Int := cDoy z - (153 * cMp z + 2) / 5 + 1

/-- Civil month (1–12) of day number `z`. -/
def cMonth (z : Int) : Int := if cMp z < 10 then cMp z + 3 else cMp z - 9

/-- Civil year of day number `z`. -/
def cYear (z : Int) : Int := cYoe z + cEra z * 400 + (if cMonth z ≤ 2 then 1 else 0)

/-- Civil date `(year, month, day)` of day number `z`. -/
def civilFromDays (z : Int) : Int × Int × Int := (cYear z, cMonth z, cDay z)

/-- Proleptic Gregorian leap year. -/
def isLeapYear (y : Int) : Prop := y % 4 = 0 ∧ (y % 100 ≠ 0 ∨ y % 400 = 0)

instance (y : Int) : Decidable (isLeapYear y) := by unfold isLeapYear; infer_instance

/-- Number of days in month `m` of year `y`. -/
def daysInMonth (y m : Int) : Int :=
  if m = 2 then (if isLeapYear y then 29 else 28)
  else if m = 4 ∨ m = 6 ∨ m = 9 ∨ m = 11 then 30
  else 31

/-- `y-m-d` names an actual calendar date. -/
def isValidYmd (y m d : Int) : Prop := 1 ≤ m ∧ m ≤ 12 ∧ 1 ≤ d ∧ d ≤ daysInMonth y m

instance (y m d : Int) : Decidable (isValidYmd y m d) := by
  unfold isValidYmd; infer_instance

/-! ### The `Date` API surface used by the source, on millisecond timestamps -/

/-- Local calendar day holding the timestamp `ms`. -/
def jsDayOf (ms : Int) : Int := ms / msPerDay

/-- `Date.prototype.getFullYear` (local). -/
def jsGetFullYear (ms : Int) : Int := cYear (jsDayOf ms)

/-- One-based local month; `Date.prototype.getMonth` returns this minus 1. -/
def jsGetMonth1 (ms : Int) : Int := cMonth (jsDayOf ms)

/-- `Date.prototype.getDate` (local day of month). -/
def jsGetDate (ms : Int) : Int := cDay (jsDayOf ms)

/-- `d.setDate(n)`: re-anchor the day-of-month to `n` in the current local
year/month, keeping the time of day.  Since ECMAScript `MakeDay` is linear in
the day argument, the new timestamp is exactly the old one shifted by
`(n - getDate()) ` days. -/
def jsSetDate (ms n : Int) : Int := ms + (n - jsGetDate ms) * msPerDay

/-- `d.setFullYear(y)`: rebuild the timestamp from `(y, getMonth(), getDate())`
keeping the time of day; an out-of-range day-of-month (Feb 29 mapped into a
non-leap year) normalizes through the linearity of `daysFromCivil`. -/
def jsSetFullYear (ms newYear : Int) : Int :=
  msPerDay * daysFromCivil newYear (jsGetMonth1 ms) (jsGetDate ms) + ms % msPerDay

/-- `d.setHours(23, 59, 59, 999)`: move to the last millisecond of the local
day holding `ms`. -/
def jsSetHoursEndOfDay (ms : Int) : Int := ms - ms % msPerDay + 86399999

/-- Exact model of `Math.ceil(a / b)` for an integer dividend and positive
integer divisor. -/
def jsCeilDiv (a b : Int) : Int := (a + b - 1) / b

/-! ### Parsing `YYYY-MM-DD` strings (the format `new Date(s)` receives here) -/

/-- Value of a decimal digit character. -/
def digitVal (c : Char) : Option Nat :=
  if c.isDigit then some (c.toNat - 48) else none

/-- Accumulating decimal reader; fails on any non-digit. -/
def digitsToNatAux : List Char → Nat → Option Nat
  | [], acc => some acc
  | c :: cs, acc =>
    match digitVal c with
    | some v => digitsToNatAux cs (acc * 10 + v)
    | none => none

/-- Decimal value of a non-empty all-digit character list. -/
def digitsToNat (cs : List Char) : Option Nat :=
  match cs with
  | [] => none
  | _ => digitsToNatAux cs 0

/-- Split a character list on `-` separators. -/
def splitOnDash : List Char → List (List Char)
  | [] => [[]]
  | c :: cs =>
    let rest := splitOnDash cs
    if c = '-' then [] :: rest
    else
      match rest with
      | [] => [[c]]
      | g :: gs => (c :: g) :: gs

/-- Parse a zero-padded ISO `YYYY-MM-DD` string to a civil date, validating
the month and the day-of-month exactly as the ECMAScript date-time string
format parse does (`new Date("2024-02-30")` is an Invalid Date).  The
source's date strings come from `<input type="date">` and ISO serialization,
which always produce this padded form. -/
def parseYmd (s : String) : Option (Int × Int × Int) :=
  match splitOnDash s.data with
  | [ys, ms, ds] =>
    if ys.length = 4 ∧ ms.length = 2 ∧ ds.length = 2 then
      match digitsToNat ys, digitsToNat ms, digitsToNat ds with
      | some y, some m, some d =>
        if isValidYmd (y : Int) (m : Int) (d : Int) then
          some ((y : Int), (m : Int), (d : Int))
        else none
      | _, _, _ => none
    else none
  | _ => none

/-- Timestamp of midnight UTC of a civil date — the value of
`new Date("YYYY-MM-DD")`, which ECMAScript reads as UTC midnight. -/
def msOfYmd (y m d : Int) : Int := msPerDay * daysFromCivil y m d

/-- Zero-pad to two digits, as `String(x).padStart(2, '0')` does for the
one- or two-digit month and day components. -/
def pad2 (n : Int) : String := if n < 10 then "0" ++ toString n else toString n

/-- Format the local date of a timestamp as `YYYY-MM-DD`, as the tail of
`calculateSLADate` does from `getFullYear/getMonth/getDate`. -/
def formatLocalYmd (ms : Int) : String :=
  toString (jsGetFullYear ms) ++ "-" ++ pad2 (jsGetMonth1 ms) ++ "-" ++ pad2 (jsGetDate ms)

/-! ## Data model of the source -/

/-- `interface RiskThresholds`. -/
structure RiskThresholds where
  intolerable : Int
  substantial : Int
  important : Int
  possible : Int
deriving DecidableEq

/-- `const DEFAULT_THRESHOLDS`. -/
def DEFAULT_THRESHOLDS : RiskThresholds :=
  { intolerable := 400, substantial := 200, important := 70, possible := 20 }

/-- The record literal returned by `getRiskClass`. -/
structure RiskClassInfo where
  label : String
  color : String
  pdfColor : List Int
  action : String
  hex : String
deriving DecidableEq

/-- `const getRiskClass = (score, thresholds = DEFAULT_THRESHOLDS) => ...`.
The optional-parameter default of the source is left to call sites. -/
def getRiskClass (score : Int) (thresholds : RiskThresholds) : RiskClassInfo :=
  if score > thresholds.intolerable then
    { label := "TOLERANS GÖSTERİLEMEZ", color := "bg-red-600 text-white",
      pdfColor := [255, 0, 0], action := "Hemen Durdur", hex := "#dc2626" }
  else if score > thresholds.substantial then
    { label := "ESASLI RİSK", color := "bg-orange-600 text-white",
      pdfColor := [255, 69, 0], action := "Acil İyileştir", hex := "#ea580c" }
  else if score > thresholds.important then
    { label := "ÖNEMLİ RİSK", color := "bg-orange-500 text-white",
      pdfColor := [255, 165, 0], action := "Kısa Vadede Çöz", hex := "#f97316" }
  else if score > thresholds.possible then
    { label := "OLASI RİSK", color := "bg-yellow-500 text-black",
      pdfColor := [255, 255, 0], action := "Gözetim Altında Tut", hex := "#eab308" }
  else
    { label := "ÖNEMSİZ RİSK", color := "bg-green-600 text-white",
      pdfColor := [0, 128, 0], action := "İzlemeye Devam", hex := "#16a34a" }

/-- Abstract severity tier, one per branch of `getRiskClass`. -/
inductive RiskTier where
  | intolerable
  | substantial
  | important
  | possible
  | negligible
deriving DecidableEq

/-- The tier selected by the five-branch comparison chain shared by
`getRiskClass`, `calculateSLADate` and `getSLALabel`. -/
def riskTier (score : Int) (t : RiskThresholds) : RiskTier :=
  if score > t.intolerable then .intolerable
  else if score > t.substantial then .substantial
  else if score > t.important then .important
  else if score > t.possible then .possible
  else .negligible

/-- Position of a tier in the severity order
Negligible < Possible < Important < Substantial < Intolerable. -/
def severityRank : RiskTier → Nat
  | .negligible => 0
  | .possible => 1
  | .important => 2
  | .substantial => 3
  | .intolerable => 4

/-- The Turkish label `getRiskClass` attaches to each tier. -/
def tierLabel : RiskTier → String
  | .intolerable => "TOLERANS GÖSTERİLEMEZ"
  | .substantial => "ESASLI RİSK"
  | .important => "ÖNEMLİ RİSK"
  | .possible => "OLASI RİSK"
  | .negligible => "ÖNEMSİZ RİSK"

/-- Whole-day SLA offset of each tier (`calculateSLADate`'s branch bodies). -/
def tierOffsetDays : RiskTier → Int
  | .intolerable => 0
  | .substantial => 30
  | .important => 60
  | .possible => 90
  | .negligible => 180

/-- The `targetDate` timestamp built by `calculateSLADate` before formatting:
`now` copied, then `targetDate.setDate(now.getDate() + offset)` per branch.
`clockNow` is the value of the source's internal `new Date()`. -/
def calculateSLATargetMs (score : Int) (thresholds : RiskThresholds) (clockNow : Int) : Int :=
  if score > thresholds.intolerable then clockNow
  else if score > thresholds.substantial then jsSetDate clockNow (jsGetDate clockNow + 30)
  else if score > thresholds.important then jsSetDate clockNow (jsGetDate clockNow + 60)
  else if score > thresholds.possible then jsSetDate clockNow (jsGetDate clockNow + 90)
  else jsSetDate clockNow (jsGetDate clockNow + 180)

/-- `const calculateSLADate = (score, thresholds = DEFAULT_THRESHOLDS) => ...`:
the `targetDate` above serialized as `YYYY-MM-DD` from local components. -/
def calculateSLADate (score : Int) (thresholds : RiskThresholds) (clockNow : Int) : String :=
  formatLocalYmd (calculateSLATargetMs score thresholds clockNow)

/-- `type HazardClass = 'Az Tehlikeli' | 'Tehlikeli' | 'Çok Tehlikeli'`. -/
inductive HazardClass where
  | azTehlikeli
  | tehlikeli
  | cokTehlikeli
deriving DecidableEq

/-- `type` argument of `calculateValidity`: `'training' | 'health'`. -/
inductive ComplianceType where
  | training
  | health
deriving DecidableEq

/-- The record literal returned by `calculateValidity`. -/
structure ValidityInfo where
  status : String
  label : String
  color : String
  days : Int
deriving DecidableEq

/-- The `yearsToAdd` selected by `calculateValidity`'s two `if` chains. -/
def validityYearsToAdd (hazardClass : HazardClass) (ty : ComplianceType) : Int :=
  match ty with
  | .training =>
    match hazardClass with
    | .cokTehlikeli => 1
    | .tehlikeli => 2
    | .azTehlikeli => 3
  | .health =>
    match hazardClass with
    | .cokTehlikeli => 1
    | .tehlikeli => 3
    | .azTehlikeli => 5

/-- The three return statements at the tail of `calculateValidity`, as a
function of the computed `diffDays`. -/
def validityStatusInfo (diffDays : Int) : ValidityInfo :=
  if diffDays < 0 then
    { status := "expired", label := "Süresi Doldu",
      color := "text-red-500 bg-red-900/20", days := diffDays }
  else if diffDays < 60 then
    { status := "warning", label := toString diffDays ++ " Gün Kaldı",
      color := "text-orange-500 bg-orange-900/20", days := diffDays }
  else
    { status := "valid", label := "Geçerli",
      color := "text-green-500 bg-green-900/20", days := diffDays }

/-- Body of `calculateValidity` past the empty-string guard, on an already
parsed event date.  `clockNow` is the source's internal `new Date()`.  In the
source: `dueDate` is a copy of the event date with
`setFullYear(getFullYear() + yearsToAdd)` applied, and
`diffDays = Math.ceil((dueDate.getTime() - now.getTime()) / msPerDay)`. -/
def calculateValidityCore (y m d : Int) (hazardClass : HazardClass) (ty : ComplianceType)
    (clockNow : Int) : ValidityInfo :=
  validityStatusInfo
    (jsCeilDiv
      (jsSetFullYear (msOfYmd y m d)
          (jsGetFullYear (msOfYmd y m d) + validityYearsToAdd hazardClass ty) -
        clockNow)
      msPerDay)

/-- `const calculateValidity = (dateStr, hazardClass, type) => ...`.
An empty string takes the `!dateStr` guard; a non-empty unparsable string
builds an Invalid Date whose NaN-poisoned result is modelled as `none`. -/
def calculateValidity (dateStr : String) (hazardClass : HazardClass) (ty : ComplianceType)
    (clockNow : Int) : Option ValidityInfo :=
  if dateStr = "" then
    some { status := "missing", label := "Veri Yok",
           color := "text-zinc-500 bg-zinc-800", days := 0 }
  else
    (parseYmd dateStr).map fun ymd =>
      calculateValidityCore ymd.1 ymd.2.1 ymd.2.2 hazardClass ty clockNow

/-- `const isOverdue = (dateStr) => ...`: empty string is falsy and returns
`false`; otherwise the due date is moved to local end of day
(`due.setHours(23, 59, 59, 999)`) and compared strictly against `now`.
An Invalid Date compares `NaN < now`, which is `false`. -/
def isOverdue (dateStr : String) (clockNow : Int) : Bool :=
  if dateStr = "" then false
  else
    match parseYmd dateStr with
    | none => false
    | some ymd => decide (jsSetHoursEndOfDay (msOfYmd ymd.1 ymd.2.1 ymd.2.2) < clockNow)

/-- `interface ActionItem`. -/
structure ActionItem where
  id : String
  description : String
  dueDate : String
  isCompleted : Bool
  responsibleId : Option String
deriving DecidableEq

/-- `interface RiskItem`.  The status union
`'Açık' | 'Devam Ediyor' | 'Tamamlandı'` is carried as a string. -/
structure RiskItem where
  id : String
  location : String
  department : String
  specific_area : String
  detectionDate : String
  source : String
  activity : String
  hazard : String
  risks : String
  probability : Int
  frequency : Int
  severity : Int
  risk_score : Int
  current_measures : String
  actions : List ActionItem
  status : String
  image : Option String
deriving DecidableEq

/-- `const SAMPLE_RISKS: RiskItem[]`. -/
def SAMPLE_RISKS : List RiskItem :=
  [{ id := "sample-1"
     location := "Genel Müdürlük"
     department := "Mutfak"
     specific_area := "Bulaşıkhane"
     detectionDate := "2024-05-20"
     source := "Zemin"
     activity := "Temizlik ve Bulaşık Yıkama"
     hazard := "Islak ve kaygan zemin"
     risks := "Kayma ve düşme sonucu yaralanma"
     probability := 3
     frequency := 6
     severity := 7
     risk_score := 126
     current_measures := "Kaymaz tabanlı ayakkabı kullanımı zorunlu değil."
     actions := [{ id := "act-1", description := "Kaymaz zemin kaplaması yapılmalı",
                   dueDate := "2024-06-20", isCompleted := false, responsibleId := none },
                 { id := "act-2", description := "Uyarı levhaları temin edilmeli",
                   dueDate := "2024-05-25", isCompleted := true, responsibleId := some "emp-1" }]
     status := "Devam Ediyor"
     image := some "https://images.unsplash.com/photo-1584622412117-b1cc54fa9e95?q=80&w=150&auto=format&fit=crop" },
   { id := "sample-2"
     location := "Ek Bina"
     department := "Teknik Oda / Sistem Odası"
     specific_area := "Elektrik Panosu"
     detectionDate := "2024-05-18"
     source := "Elektrik Tesisatı"
     activity := "Bakım Onarım"
     hazard := "Açıkta duran kablo uçları"
     risks := "Elektrik çarpması, yangın"
     probability := 3
     frequency := 3
     severity := 40
     risk_score := 360
     current_measures := "Pano kilitli değil."
     actions := [{ id := "act-3", description := "Kablolar izole edilmeli ve pano kilitlenmeli",
                   dueDate := "2024-05-21", isCompleted := false, responsibleId := some "emp-2" }]
     status := "Açık"
     image := some "https://images.unsplash.com/photo-1544724569-5f546fd6dd2d?q=80&w=150&auto=format&fit=crop" }]

/-- The dashboard statistic
`filteredRisks.reduce((count, risk) => count + risk.actions.filter(a => !a.isCompleted && isOverdue(a.dueDate)).length, 0)`. -/
def overdueActionsCount (filteredRisks : List RiskItem) (clockNow : Int) : Nat :=
  filteredRisks.foldl
    (fun count risk =>
      count + (risk.actions.filter fun a => !a.isCompleted && isOverdue a.dueDate clockNow).length)
    0

/-- `interface BusinessUnit`. -/
structure BusinessUnit where
  id : String
  name : String
  thresholds : Option RiskThresholds
deriving DecidableEq

/-- `interface Registry`. -/
structure Registry where
  id : String
  name : String
  units : List BusinessUnit
  isExpanded : Bool
deriving DecidableEq

/-- `getAllUnits`: flatten every registry's units, in order. -/
def getAllUnits (registries : List Registry) : List BusinessUnit :=
  registries.foldl (fun units reg => units ++ reg.units) []

/-- `const getThresholdsForLocation = (locName) => ...`:
`allUnits.find(u => u.name === locName)` then `unit?.thresholds || DEFAULT_THRESHOLDS`
(an object is always truthy, so a present custom set is returned as is). -/
def getThresholdsForLocation (registries : List Registry) (locName : String) : RiskThresholds :=
  match (getAllUnits registries).find? (fun u => u.name == locName) with
  | some unit => unit.thresholds.getD DEFAULT_THRESHOLDS
  | none => DEFAULT_THRESHOLDS

/-- One record of the array the AI extraction service returns to
`handleFileUpload`; absent fields are `Option.none`. -/
structure AnalyzedRisk where
  department : Option String
  specific_area : Option String
  source : Option String
  activity : Option String
  hazard : Option String
  risks : Option String
  current_measures : Option String
  probability : Option Int
  frequency : Option Int
  severity : Option Int
  actions : Option (List String)

/-- JavaScript `x || 1` on a possibly-absent number: `undefined` and `0` are
falsy and give 1. -/
def jsOrOne : Option Int → Int
  | none => 1
  | some v => if v = 0 then 1 else v

/-- JavaScript `x || dflt` on a possibly-absent string: `undefined` and `""`
are falsy and give the default. -/
def jsOrStr (x : Option String) (dflt : String) : String :=
  match x with
  | none => dflt
  | some s => if s = "" then dflt else s

/-- The record built for each AI result inside `handleFileUpload`'s
`res.map(...)`.  The effectful inputs of the source — `generateId()`, the
`new Date().toISOString()` detection date, the uploaded image data URL and
the internal clock of `calculateSLADate` — are passed explicitly. -/
def mkNewRisk (selectedLocation : String) (currentThresholds : RiskThresholds) (clockNow : Int)
    (freshId : String) (actionIdGen : Nat → String) (todayStr : String) (imageData : String)
    (r : AnalyzedRisk) : RiskItem :=
  let score := jsOrOne r.probability * jsOrOne r.frequency * jsOrOne r.severity
  { id := freshId
    location := selectedLocation
    department := jsOrStr r.department "Genel"
    specific_area := jsOrStr r.specific_area ""
    detectionDate := todayStr
    source := jsOrStr r.source "Kaynak"
    activity := jsOrStr r.activity "Faaliyet"
    hazard := jsOrStr r.hazard "Tehlike"
    risks := jsOrStr r.risks "Risk"
    probability := jsOrOne r.probability
    frequency := jsOrOne r.frequency
    severity := jsOrOne r.severity
    risk_score := score
    current_measures := jsOrStr r.current_measures "Yok"
    actions :=
      match r.actions with
      | some l =>
        l.enum.map fun p =>
          { id := actionIdGen p.1, description := p.2,
            dueDate := calculateSLADate score currentThresholds clockNow,
            isCompleted := false, responsibleId := none }
      | none => []
    status := "Açık"
    image := some imageData }

/-- A thresholds record that is present but not strictly descending:
`intolerable < substantial < important < possible`. -/
def badThresholds : RiskThresholds :=
  { intolerable := 20, substantial := 70, important := 200, possible := 400 }

/-- A registry whose single unit carries the malformed custom thresholds. -/
def badUnitRegistries : List Registry :=
  [{ id := "reg-1", name := "Sicil 1",
     units := [{ id := "unit-1", name := "Şube A", thresholds := some badThresholds }],
     isExpanded := true }]

/-- The action of the §8 example
`evaluate([{due:'2024-01-01', completed:false}], now='2024-06-01')`. -/
def demoAction : ActionItem :=
  { id := "demo-act", description := "demo", dueDate := "2024-01-01",
    isCompleted := false, responsibleId := none }

/-- A risk carrying exactly `demoAction`. -/
def demoRisk : RiskItem :=
  { id := "demo", location := "Genel Müdürlük", department := "Genel Alan",
    specific_area := "", detectionDate := "2024-01-01", source := "Zemin",
    activity := "demo", hazard := "demo", risks := "demo",
    probability := 1, frequency := 1, severity := 1, risk_score := 1,
    current_measures := "demo", actions := [demoAction], status := "Açık",
    image := none }

/-! ## Correctness of the calendar conversion -/

/-- Recovering the year of era from the day of era (the inner division chain
of `cYoe`). -/
theorem yoeRecovery (yoe doy doe : Int) (h1 : 0 ≤ yoe) (h2 : yoe < 400)
    (h3 : 0 ≤ doy)
    (h4 : doy ≤ 364 ∨ (doy = 365 ∧ (yoe + 1) % 4 = 0 ∧
      ((yoe + 1) % 100 ≠ 0 ∨ yoe = 399)))
    (hdoe : doe = 365 * yoe + yoe / 4 - yoe / 100 + doy) :
    (doe - doe / 1460 + doe / 36524 - doe / 146096) / 365 = yoe := by
  obtain ⟨c, t, u, hyoe, hc0, hc1, ht0, ht1, hu0, hu1, hq4, hq100⟩ :
      ∃ c t u, yoe = 100 * c + 4 * t + u ∧ 0 ≤ c ∧ c < 4 ∧ 0 ≤ t ∧ t < 25 ∧
        0 ≤ u ∧ u < 4 ∧ yoe / 4 = 25 * c + t ∧ yoe / 100 = c :=
    ⟨yoe / 100, (yoe % 100) / 4, yoe % 4, by omega⟩
  have hdoe2 : doe = 36524 * c + 1461 * t + 365 * u + doy := by omega
  have hd1460 : doe / 1460 = 25 * c + t + (24 * c + t + 365 * u + doy) / 1460 := by
    omega
  have hd36524 : doe / 36524 = c + (1461 * t + 365 * u + doy) / 36524 := by
    omega
  have hu3 : doy = 365 → u = 3 := by omega
  have hc3 : doy = 365 → t = 24 → c = 3 := by omega
  have hbeta : (1461 * t + 365 * u + doy) / 36524 = doe / 146096 := by omega
  have hE1 : 0 ≤ doy - (24 * c + t + 365 * u + doy) / 1460 := by omega
  have hE2 : doy - (24 * c + t + 365 * u + doy) / 1460 ≤ 364 := by omega
  omega

/-- A valid date's bounds, unfolded into omega-friendly arithmetic. -/
theorem valid_bounds (y m d : Int) (h : isValidYmd y m d) :
    1 ≤ m ∧ m ≤ 12 ∧ 1 ≤ d ∧
      ((m = 2 ∧ y % 4 = 0 ∧ (y % 100 ≠ 0 ∨ y % 400 = 0) ∧ d ≤ 29) ∨
       (m = 2 ∧ ¬(y % 4 = 0 ∧ (y % 100 ≠ 0 ∨ y % 400 = 0)) ∧ d ≤ 28) ∨
       ((m = 4 ∨ m = 6 ∨ m = 9 ∨ m = 11) ∧ d ≤ 30) ∨
       (¬(m = 2) ∧ ¬(m = 4 ∨ m = 6 ∨ m = 9 ∨ m = 11) ∧ d ≤ 31)) := by
  obtain ⟨h1, h2, h3, h4⟩ := h
  refine ⟨h1, h2, h3, ?_⟩
  unfold daysInMonth at h4
  split_ifs at h4 with hm2 hleap hm30
  · exact Or.inl ⟨hm2, hleap.1, hleap.2, h4⟩
  · exact Or.inr (Or.inl ⟨hm2, hleap, h4⟩)
  · exact Or.inr (Or.inr (Or.inl ⟨hm30, h4⟩))
  · exact Or.inr (Or.inr (Or.inr ⟨hm2, hm30, h4⟩))

/-- Range of the day of the March-based year, with the leap-day case tied to
the leap rule of the year of era. -/
theorem doy_bounds (y m d : Int) (h : isValidYmd y m d) :
    0 ≤ dDoy m d ∧
      (dDoy m d ≤ 364 ∨ (dDoy m d = 365 ∧ (dYoe y m + 1) % 4 = 0 ∧
        ((dYoe y m + 1) % 100 ≠ 0 ∨ dYoe y m = 399))) := by
  have hb := valid_bounds y m d h
  unfold dDoy dYoe dY1
  split_ifs with hm2 hm2' <;> omega

/-- `civilFromDays` recovers the era of `daysFromCivil`. -/
theorem era_eq (y m d : Int) (h : isValidYmd y m d) :
    cEra (daysFromCivil y m d) = dY1 y m / 400 := by
  have hb := valid_bounds y m d h
  have hdoy := doy_bounds y m d h
  unfold cEra daysFromCivil dDoe
  unfold dDoy dYoe dY1 at *
  split_ifs at * <;> omega

/-- `civilFromDays` recovers the day of era of `daysFromCivil`. -/
theorem doe_eq (y m d : Int) (h : isValidYmd y m d) :
    cDoe (daysFromCivil y m d) = dDoe y m d := by
  have he := era_eq y m d h
  unfold cDoe daysFromCivil at *
  omega

/-- `civilFromDays` recovers the year of era of `daysFromCivil`. -/
theorem yoe_eq (y m d : Int) (h : isValidYmd y m d) :
    cYoe (daysFromCivil y m d) = dYoe y m := by
  have hde := doe_eq y m d h
  have hdoy := doy_bounds y m d h
  have hyoe0 : 0 ≤ dYoe y m ∧ dYoe y m < 400 := by unfold dYoe; omega
  unfold cYoe
  rw [hde]
  exact yoeRecovery (dYoe y m) (dDoy m d) (dDoe y m d) hyoe0.1 hyoe0.2 hdoy.1 hdoy.2 rfl

/-- `civilFromDays` recovers the day of the March-based year. -/
theorem doy_eq (y m d : Int) (h : isValidYmd y m d) :
    cDoy (daysFromCivil y m d) = dDoy m d := by
  have hde := doe_eq y m d h
  have hye := yoe_eq y m d h
  unfold cDoy
  rw [hde, hye]
  unfold dDoe
  ring

/-- `civilFromDays` recovers the March-based month index. -/
theorem mp_eq (y m d : Int) (h : isValidYmd y m d) :
    cMp (daysFromCivil y m d) = (if m > 2 then m - 3 else m + 9) := by
  have hdoy := doy_eq y m d h
  have hb := valid_bounds y m d h
  unfold cMp
  rw [hdoy]
  unfold dDoy
  have hm1 : 1 ≤ m := hb.1
  have hm12 : m ≤ 12 := hb.2.1
  interval_cases m <;> split_ifs <;> omega

/-- `civilFromDays` recovers the day of month. -/
theorem day_eq (y m d : Int) (h : isValidYmd y m d) :
    cDay (daysFromCivil y m d) = d := by
  have hdoy := doy_eq y m d h
  have hmp := mp_eq y m d h
  unfold cDay
  rw [hdoy, hmp]
  unfold dDoy
  split_ifs <;> omega

/-- `civilFromDays` recovers the month. -/
theorem month_eq (y m d : Int) (h : isValidYmd y m d) :
    cMonth (daysFromCivil y m d) = m := by
  have hmp := mp_eq y m d h
  have hb := valid_bounds y m d h
  unfold cMonth
  rw [hmp]
  split_ifs <;> omega

/-- `civilFromDays` recovers the year. -/
theorem year_eq (y m d : Int) (h : isValidYmd y m d) :
    cYear (daysFromCivil y m d) = y := by
  have hye := yoe_eq y m d h
  have hera := era_eq y m d h
  have hmo := month_eq y m d h
  have hb := valid_bounds y m d h
  unfold cYear
  rw [hye, hera, hmo]
  unfold dYoe dY1
  split_ifs <;> omega

/-- The calendar conversion round-trips on every valid civil date. -/
theorem civil_roundtrip (y m d : Int) (h : isValidYmd y m d) :
    civilFromDays (daysFromCivil y m d) = (y, m, d) := by
  unfold civilFromDays
  rw [year_eq y m d h, month_eq y m d h, day_eq y m d h]

/-! ## Helper lemmas about the embedded operations -/

/-- A parse success always carries a valid civil date. -/
theorem parseYmd_valid (s : String) (y m d : Int) (hp : parseYmd s = some (y, m, d)) :
    isValidYmd y m d := by
  unfold parseYmd at hp
  split at hp
  all_goals try exact Option.noConfusion hp
  split_ifs at hp
  split at hp
  all_goals try exact Option.noConfusion hp
  split_ifs at hp with hv
  simp only [Option.some.injEq, Prod.mk.injEq] at hp
  obtain ⟨e1, e2, e3⟩ := hp
  rw [← e1, ← e2, ← e3]
  exact hv

/-- The empty string never parses. -/
theorem parseYmd_empty : parseYmd "" = none := rfl

/-- A timestamp that is an exact multiple of a day has day number the
multiplier and no time-of-day remainder. -/
theorem msOfYmd_day (y m d : Int) :
    msOfYmd y m d / msPerDay = daysFromCivil y m d ∧ msOfYmd y m d % msPerDay = 0 := by
  unfold msOfYmd msPerDay
  omega

/-- The local getters read back the components of a midnight timestamp of a
valid date. -/
theorem getters_midnight (y m d : Int) (h : isValidYmd y m d) :
    jsGetFullYear (msOfYmd y m d) = y ∧ jsGetMonth1 (msOfYmd y m d) = m ∧
      jsGetDate (msOfYmd y m d) = d := by
  have hd := (msOfYmd_day y m d).1
  unfold jsGetFullYear jsGetMonth1 jsGetDate jsDayOf
  rw [hd]
  exact ⟨year_eq y m d h, month_eq y m d h, day_eq y m d h⟩

/-- Ceiling division of a midnight-anchored difference counts whole local
days: `⌈(D·day − c) / day⌉ = D − ⌊c / day⌋`. -/
theorem ceilDiv_day (D c : Int) :
    jsCeilDiv (msPerDay * D - c) msPerDay = D - c / msPerDay := by
  unfold jsCeilDiv msPerDay
  omega

/-- The `targetDate` of `calculateSLADate` is the clock value shifted by the
tier's whole-day offset. -/
theorem sla_target_shift (score : Int) (t : RiskThresholds) (clockNow : Int) :
    calculateSLATargetMs score t clockNow =
      clockNow + tierOffsetDays (riskTier score t) * msPerDay := by
  unfold calculateSLATargetMs riskTier jsSetDate
  split_ifs <;> (simp only [tierOffsetDays]; ring)

/-- The serialized date only depends on the local calendar day of the
timestamp. -/
theorem formatLocalYmd_congr (ms ms' : Int) (h : ms / msPerDay = ms' / msPerDay) :
    formatLocalYmd ms = formatLocalYmd ms' := by
  unfold formatLocalYmd jsGetFullYear jsGetMonth1 jsGetDate jsDayOf
  rw [h]

/-- `getRiskClass` and the abstract tier agree branch by branch. -/
theorem getRiskClass_label (score : Int) (t : RiskThresholds) :
    (getRiskClass score t).label = tierLabel (riskTier score t) := by
  unfold getRiskClass riskTier
  split_ifs <;> rfl

/-- Field values of `validityStatusInfo`. -/
theorem validityStatusInfo_spec (k : Int) :
    (validityStatusInfo k).days = k ∧
      ((validityStatusInfo k).status = "expired" ↔ k < 0) ∧
      ((validityStatusInfo k).status = "warning" ↔ 0 ≤ k ∧ k < 60) ∧
      ((validityStatusInfo k).status = "valid" ↔ 60 ≤ k) := by
  have hew : ¬ (("expired" : String) = "warning") := by decide
  have hev : ¬ (("expired" : String) = "valid") := by decide
  have hwe : ¬ (("warning" : String) = "expired") := by decide
  have hwv : ¬ (("warning" : String) = "valid") := by decide
  have hve : ¬ (("valid" : String) = "expired") := by decide
  have hvw : ¬ (("valid" : String) = "warning") := by decide
  unfold validityStatusInfo
  split_ifs with h1 h2
  · exact ⟨rfl, ⟨fun _ => h1, fun _ => rfl⟩,
      ⟨fun hh => absurd hh hew, fun hh => absurd hh (by omega)⟩,
      ⟨fun hh => absurd hh hev, fun hh => absurd hh (by omega)⟩⟩
  · exact ⟨rfl, ⟨fun hh => absurd hh hwe, fun hh => absurd hh (by omega)⟩,
      ⟨fun _ => by omega, fun _ => rfl⟩,
      ⟨fun hh => absurd hh hwv, fun hh => absurd hh (by omega)⟩⟩
  · exact ⟨rfl, ⟨fun hh => absurd hh hve, fun hh => absurd hh (by omega)⟩,
      ⟨fun hh => absurd hh hvw, fun hh => absurd hh (by omega)⟩,
      ⟨fun _ => by omega, fun _ => rfl⟩⟩

/-- Characterization of `calculateValidityCore` on a valid event date: the
due day is the event date with the year advanced (month and day preserved,
Feb 29 normalizing through the linear day arithmetic), and the result is the
status record of `dueDay − ⌊now / day⌋`. -/
theorem calculateValidityCore_char (y m d : Int) (hc : HazardClass) (ty : ComplianceType)
    (clockNow : Int) (h : isValidYmd y m d) :
    calculateValidityCore y m d hc ty clockNow =
      validityStatusInfo
        (daysFromCivil (y + validityYearsToAdd hc ty) m d - clockNow / msPerDay) := by
  obtain ⟨hy, hm, hd⟩ := getters_midnight y m d h
  have hrem := (msOfYmd_day y m d).2
  unfold calculateValidityCore jsSetFullYear
  rw [hy, hm, hd, hrem, add_zero, ceilDiv_day]

/-! ## The claims -/

/-- Claim C2: the risk classifier uses strict exclusive lower bounds.  For
every thresholds value, a score exactly equal to a boundary never lands in
the tier guarded by that boundary; with strictly descending thresholds it
lands exactly one severity tier lower; in particular
`getRiskClass 400 DEFAULT_THRESHOLDS` carries the Substantial label
`"ESASLI RİSK"`, not the Intolerable label, given the default intolerable
boundary 400. -/
theorem claim_C2_boundary_exclusive :
    (∀ (t : RiskThresholds) (s : Int),
        (s = t.intolerable → riskTier s t ≠ RiskTier.intolerable) ∧
        (s = t.substantial → riskTier s t ≠ RiskTier.substantial) ∧
        (s = t.important → riskTier s t ≠ RiskTier.important) ∧
        (s = t.possible → riskTier s t ≠ RiskTier.possible)) ∧
    (∀ t : RiskThresholds,
        t.intolerable > t.substantial → t.substantial > t.important →
        t.important > t.possible →
        riskTier t.intolerable t = RiskTier.substantial ∧
        riskTier t.substantial t = RiskTier.important ∧
        riskTier t.important t = RiskTier.possible ∧
        riskTier t.possible t = RiskTier.negligible) ∧
    (getRiskClass 400 DEFAULT_THRESHOLDS).label = "ESASLI RİSK" ∧
    (getRiskClass 400 DEFAULT_THRESHOLDS).label ≠ "TOLERANS GÖSTERİLEMEZ" := by
  refine ⟨?_, ?_, by decide, by decide⟩
  · intro t s
    refine ⟨?_, ?_, ?_, ?_⟩ <;> intro hs <;> unfold riskTier <;> split_ifs <;>
      first | decide | omega
  · intro t h1 h2 h3
    refine ⟨?_, ?_, ?_, ?_⟩ <;> unfold riskTier <;> split_ifs <;>
      first | rfl | omega

/-- Witness for C2 at the default thresholds and the boundary score 400. -/
theorem claim_C2_witness : riskTier 400 DEFAULT_THRESHOLDS ≠ RiskTier.intolerable :=
  (claim_C2_boundary_exclusive.1 DEFAULT_THRESHOLDS 400).1 rfl

/-- Claim C9: for a fixed thresholds record (not necessarily strictly
descending) the classifier is monotone in the score with respect to the
severity order Negligible < Possible < Important < Substantial <
Intolerable. -/
theorem claim_C9_monotone (t : RiskThresholds) (s1 s2 : Int) (h : s1 ≤ s2) :
    severityRank (riskTier s1 t) ≤ severityRank (riskTier s2 t) := by
  unfold riskTier
  split_ifs <;> first | decide | (exfalso; omega)

/-- Witness for C9 at concrete scores 100 ≤ 300. -/
theorem claim_C9_witness :
    severityRank (riskTier 100 DEFAULT_THRESHOLDS) ≤
      severityRank (riskTier 300 DEFAULT_THRESHOLDS) :=
  claim_C9_monotone DEFAULT_THRESHOLDS 100 300 (by decide)

/-- Claim C3: the SLA deadline is the clock value (the source's internal
`new Date()`) advanced by exactly the whole-day offset of the tier that the
classifier assigns to the same score and thresholds — 0 days Intolerable,
30 Substantial, 60 Important, 90 Possible, 180 Negligible — applied in local
calendar time. -/
theorem claim_C3_sla_deadline (score : Int) (t : RiskThresholds) (clockNow : Int) :
    calculateSLATargetMs score t clockNow =
        clockNow + tierOffsetDays (riskTier score t) * msPerDay ∧
    jsDayOf (calculateSLATargetMs score t clockNow) =
        jsDayOf clockNow + tierOffsetDays (riskTier score t) ∧
    calculateSLADate score t clockNow =
        formatLocalYmd (clockNow + tierOffsetDays (riskTier score t) * msPerDay) ∧
    (getRiskClass score t).label = tierLabel (riskTier score t) ∧
    tierOffsetDays RiskTier.intolerable = 0 ∧
    tierOffsetDays RiskTier.substantial = 30 ∧
    tierOffsetDays RiskTier.important = 60 ∧
    tierOffsetDays RiskTier.possible = 90 ∧
    tierOffsetDays RiskTier.negligible = 180 := by
  have hshift := sla_target_shift score t clockNow
  refine ⟨hshift, ?_, ?_, getRiskClass_label score t, rfl, rfl, rfl, rfl, rfl⟩
  · rw [hshift]
    unfold jsDayOf msPerDay
    omega
  · unfold calculateSLADate
    rw [hshift]

/-- Claim C1 counterexample: `calculateSLADate` reads the global clock
internally instead of taking `now` as an argument, so two calls with
identical declared inputs (score 100, default thresholds) observed at clock
values one day apart return different strings. -/
theorem claim_C1_counterexample :
    calculateSLADate 100 DEFAULT_THRESHOLDS 0 ≠
      calculateSLADate 100 DEFAULT_THRESHOLDS 86400000 := by decide

/-- Claim C1 (amended): the classifier takes no time input, and each
time-dependent operation — SLA deadline, compliance validity, overdue test —
reads the global clock internally (the explicit `clockNow` argument of the
model); with identical inputs and identical clock readings the outputs are
identical — indeed any two clock readings on the same local calendar day
yield identical output. -/
theorem claim_C1_amended :
    (∀ (score : Int) (t : RiskThresholds) (c c' : Int), jsDayOf c = jsDayOf c' →
        calculateSLADate score t c = calculateSLADate score t c') ∧
    (∀ (s : String) (hc : HazardClass) (ty : ComplianceType) (c c' : Int),
        jsDayOf c = jsDayOf c' →
        calculateValidity s hc ty c = calculateValidity s hc ty c') ∧
    (∀ (s : String) (c c' : Int), jsDayOf c = jsDayOf c' →
        isOverdue s c = isOverdue s c') := by
  refine ⟨?_, ?_, ?_⟩
  · intro score t c c' h
    unfold calculateSLADate
    rw [sla_target_shift, sla_target_shift]
    apply formatLocalYmd_congr
    unfold jsDayOf at h
    unfold msPerDay at *
    omega
  · intro s hc ty c c' h
    unfold calculateValidity
    split_ifs with hs
    · rfl
    · cases hp : parseYmd s with
      | none => rfl
      | some ymd =>
        obtain ⟨y, m, d⟩ := ymd
        have hv := parseYmd_valid s y m d hp
        simp only [Option.map_some']
        try dsimp only
        rw [calculateValidityCore_char y m d hc ty c hv,
          calculateValidityCore_char y m d hc ty c' hv]
        unfold jsDayOf at h
        rw [h]
  · intro s c c' h
    unfold isOverdue
    split_ifs with hs
    · rfl
    · cases hp : parseYmd s with
      | none => rfl
      | some ymd =>
        obtain ⟨y, m, d⟩ := ymd
        try dsimp only
        simp only [decide_eq_decide]
        unfold jsSetHoursEndOfDay msOfYmd msPerDay
        unfold jsDayOf msPerDay at h
        omega

/-- Witness for C1 (amended) at two clock values within the same day. -/
theorem claim_C1_witness :
    calculateSLADate 100 DEFAULT_THRESHOLDS 0 = calculateSLADate 100 DEFAULT_THRESHOLDS 1 :=
  claim_C1_amended.1 100 DEFAULT_THRESHOLDS 0 1 (by decide)

/-- Claim C4: on a parseable (non-empty) event date, `calculateValidity`
produces a result whose due date is the event date advanced by the validity
years of the hazard-class/compliance-type pair (calendar-year addition
preserving month and day, Feb 29 normalizing through the linear day
arithmetic), whose `days` field is `⌈(dueDate − now) / 1 day⌉`, and whose
status is Expired iff `days < 0`, Warning iff `0 ≤ days < 60` and Valid iff
`60 ≤ days`; the validity-year table is Highly Hazardous 1/1, Hazardous 2/3,
Low 3/5 (training/health). -/
theorem claim_C4_validity (s : String) (y m d : Int) (hc : HazardClass)
    (ty : ComplianceType) (clockNow : Int) (hp : parseYmd s = some (y, m, d)) :
    ∃ r, calculateValidity s hc ty clockNow = some r ∧
      r.days = jsCeilDiv (msOfYmd (y + validityYearsToAdd hc ty) m d - clockNow) msPerDay ∧
      (r.status = "expired" ↔ r.days < 0) ∧
      (r.status = "warning" ↔ 0 ≤ r.days ∧ r.days < 60) ∧
      (r.status = "valid" ↔ 60 ≤ r.days) ∧
      validityYearsToAdd HazardClass.cokTehlikeli ComplianceType.training = 1 ∧
      validityYearsToAdd HazardClass.cokTehlikeli ComplianceType.health = 1 ∧
      validityYearsToAdd HazardClass.tehlikeli ComplianceType.training = 2 ∧
      validityYearsToAdd HazardClass.tehlikeli ComplianceType.health = 3 ∧
      validityYearsToAdd HazardClass.azTehlikeli ComplianceType.training = 3 ∧
      validityYearsToAdd HazardClass.azTehlikeli ComplianceType.health = 5 := by
  have hs : ¬ (s = "") := by
    intro he
    rw [he, parseYmd_empty] at hp
    exact Option.noConfusion hp
  have hv := parseYmd_valid s y m d hp
  have hchar := calculateValidityCore_char y m d hc ty clockNow hv
  have hspec := validityStatusInfo_spec
    (daysFromCivil (y + validityYearsToAdd hc ty) m d - clockNow / msPerDay)
  refine ⟨calculateValidityCore y m d hc ty clockNow, ?_, ?_, ?_, ?_, ?_,
    rfl, rfl, rfl, rfl, rfl, rfl⟩
  · unfold calculateValidity
    rw [if_neg hs, hp]
    simp only [Option.map_some']
  · rw [hchar, hspec.1]
    unfold msOfYmd
    rw [ceilDiv_day]
  · rw [hchar, hspec.1]
    exact hspec.2.1
  · rw [hchar, hspec.1]
    exact hspec.2.2.1
  · rw [hchar, hspec.1]
    exact hspec.2.2.2

/-- Witness for C4: the §8 example — training last done 2020-01-15 for a
highly hazardous job, checked with the clock at 2021-01-16, is expired by
one day. -/
theorem claim_C4_witness :
    ∃ r, calculateValidity "2020-01-15" HazardClass.cokTehlikeli ComplianceType.training
        (msOfYmd 2021 1 16) = some r ∧ r.status = "expired" ∧ r.days = -1 := by
  obtain ⟨r, hr, hdays, hexp, _, _, _, _, _, _, _, _⟩ :=
    claim_C4_validity "2020-01-15" 2020 1 15 HazardClass.cokTehlikeli
      ComplianceType.training (msOfYmd 2021 1 16) (by decide)
  have hd1 : r.days = -1 := by rw [hdays]; decide
  exact ⟨r, hr, hexp.2 (by omega), hd1⟩

/-- Claim C6: an empty event date yields the distinct NoData record — status
`"missing"`, `days = 0` — for every hazard class and compliance type, and
that status is never the Expired status. -/
theorem claim_C6_nodata (hc : HazardClass) (ty : ComplianceType) (clockNow : Int) :
    calculateValidity "" hc ty clockNow =
      some { status := "missing", label := "Veri Yok",
             color := "text-zinc-500 bg-zinc-800", days := 0 } ∧
    (∀ r, calculateValidity "" hc ty clockNow = some r →
        r.status = "missing" ∧ r.days = 0 ∧ r.status ≠ "expired") := by
  have h0 : calculateValidity "" hc ty clockNow =
      some { status := "missing", label := "Veri Yok",
             color := "text-zinc-500 bg-zinc-800", days := 0 } := rfl
  refine ⟨h0, ?_⟩
  intro r hr
  rw [h0] at hr
  simp only [Option.some.injEq] at hr
  rw [← hr]
  exact ⟨rfl, rfl, by decide⟩

/-- Witness for C6 at a concrete class, type and clock value. -/
theorem claim_C6_witness :
    ∃ r, calculateValidity "" HazardClass.azTehlikeli ComplianceType.training 0 = some r ∧
      r.status = "missing" ∧ r.days = 0 ∧ r.status ≠ "expired" := by
  obtain ⟨h0, h1⟩ := claim_C6_nodata HazardClass.azTehlikeli ComplianceType.training 0
  exact ⟨_, h0, h1 _ h0⟩

/-- Claim C5 counterexample: threshold resolution performs no well-formedness
check — a present custom set whose boundaries are not strictly descending is
returned as is instead of the default set. -/
theorem claim_C5_counterexample :
    getThresholdsForLocation badUnitRegistries "Şube A" = badThresholds ∧
    ¬(badThresholds.intolerable > badThresholds.substantial ∧
      badThresholds.substantial > badThresholds.important ∧
      badThresholds.important > badThresholds.possible) ∧
    badThresholds ≠ DEFAULT_THRESHOLDS := by decide

/-- Claim C5 (amended): threshold resolution returns the location's custom
thresholds whenever a unit with that name is found and carries a custom set —
well-formed or not — and the default set `{400, 200, 70, 20}` otherwise; it
is a total function and never fails. -/
theorem claim_C5_amended (registries : List Registry) (locName : String) :
    (∀ u, (getAllUnits registries).find? (fun u => u.name == locName) = some u →
        getThresholdsForLocation registries locName =
          u.thresholds.getD DEFAULT_THRESHOLDS) ∧
    ((getAllUnits registries).find? (fun u => u.name == locName) = none →
        getThresholdsForLocation registries locName = DEFAULT_THRESHOLDS) := by
  constructor
  · intro u hu
    unfold getThresholdsForLocation
    rw [hu]
  · intro hn
    unfold getThresholdsForLocation
    rw [hn]

/-- Witness for C5 (amended): no unit matches in an empty hierarchy, so the
default set is returned. -/
theorem claim_C5_witness : getThresholdsForLocation [] "Merkez" = DEFAULT_THRESHOLDS :=
  (claim_C5_amended [] "Merkez").2 rfl

/-- Claim C7: an action counts toward the overdue statistic iff it is not
completed and its due date at local end of day (23:59:59.999) lies strictly
before `now`; in particular a single incomplete action due `2024-01-01`
evaluated with the clock at `2024-06-01` yields an overdue count of 1. -/
theorem claim_C7_overdue :
    (∀ (a : ActionItem) (clockNow y m d : Int), parseYmd a.dueDate = some (y, m, d) →
        ((!a.isCompleted && isOverdue a.dueDate clockNow) = true ↔
          a.isCompleted = false ∧ msOfYmd y m d + 86399999 < clockNow)) ∧
    overdueActionsCount [demoRisk] (msOfYmd 2024 6 1) = 1 := by
  constructor
  · intro a clockNow y m d hp
    have hs : ¬ (a.dueDate = "") := by
      intro he
      rw [he, parseYmd_empty] at hp
      exact Option.noConfusion hp
    have hrem : msOfYmd y m d % msPerDay = 0 := (msOfYmd_day y m d).2
    unfold isOverdue
    rw [if_neg hs, hp]
    unfold jsSetHoursEndOfDay
    dsimp only
    rw [hrem, sub_zero]
    simp [Bool.and_eq_true, Bool.not_eq_true', decide_eq_true_eq]
  · decide

/-- Witness for C7: the demo action is counted overdue at the clock value
2024-06-01. -/
theorem claim_C7_witness :
    (!demoAction.isCompleted && isOverdue demoAction.dueDate (msOfYmd 2024 6 1)) = true :=
  (claim_C7_overdue.1 demoAction (msOfYmd 2024 6 1) 2024 1 1 (by decide)).2
    ⟨rfl, by decide⟩

/-- An accumulator-generalized form of the overdue count over risks whose
actions all have an empty due date. -/
theorem overdue_foldl_const (clockNow : Int) (rs : List RiskItem)
    (h : ∀ r ∈ rs, ∀ a ∈ r.actions, a.dueDate = "") (acc : Nat) :
    rs.foldl
      (fun count risk =>
        count + (risk.actions.filter fun a => !a.isCompleted && isOverdue a.dueDate clockNow).length)
      acc = acc := by
  induction rs generalizing acc with
  | nil => rfl
  | cons r rest ih =>
    have hfilter :
        (r.actions.filter fun a => !a.isCompleted && isOverdue a.dueDate clockNow) = [] := by
      rw [List.filter_eq_nil_iff]
      intro a ha
      have he := h r (List.mem_cons_self r rest) a ha
      rw [he]
      simp [isOverdue]
    simp only [List.foldl_cons, hfilter, List.length_nil, Nat.add_zero]
    exact ih (fun r' hr' => h r' (List.mem_cons_of_mem r hr')) acc

/-- Claim C10: an action whose due-date string is empty is never overdue —
`isOverdue` on the empty string is `false` for every clock value, the
dashboard filter predicate rejects such an action regardless of its
completion flag, and a risk list all of whose actions have empty due dates
contributes an overdue count of zero. -/
theorem claim_C10_empty_due (clockNow : Int) :
    isOverdue "" clockNow = false ∧
    (∀ a : ActionItem, a.dueDate = "" →
        (!a.isCompleted && isOverdue a.dueDate clockNow) = false) ∧
    (∀ rs : List RiskItem, (∀ r ∈ rs, ∀ a ∈ r.actions, a.dueDate = "") →
        overdueActionsCount rs clockNow = 0) := by
  refine ⟨rfl, ?_, ?_⟩
  · intro a ha
    rw [ha]
    rw [show isOverdue "" clockNow = false from rfl, Bool.and_false]
  · intro rs h
    unfold overdueActionsCount
    exact overdue_foldl_const clockNow rs h 0

/-- Witness for C10: a risk whose only action has an empty due date and is
not completed contributes nothing to the overdue count. -/
theorem claim_C10_witness :
    overdueActionsCount
      [{ demoRisk with
          actions := [{ id := "w", description := "w", dueDate := "",
                        isCompleted := false, responsibleId := none }] }] 0 = 0 :=
  (claim_C10_empty_due 0).2.2 _ (by
    intro r hr a ha
    simp only [List.mem_singleton] at hr
    subst hr
    simp only [List.mem_singleton] at ha
    subst ha
    rfl)

/-- Claim C8: every hazard record the dashboard consumes satisfies
`risk_score = probability × frequency × severity` — both sample records do,
and every record built from an AI-analysis result stores exactly the product
of its stored factors. -/
theorem claim_C8_score_product :
    (SAMPLE_RISKS.all fun r =>
        r.risk_score == r.probability * r.frequency * r.severity) = true ∧
    ∀ (loc : String) (t : RiskThresholds) (clockNow : Int) (freshId : String)
      (actionIdGen : Nat → String) (todayStr imageData : String) (r : AnalyzedRisk),
      (mkNewRisk loc t clockNow freshId actionIdGen todayStr imageData r).risk_score =
        (mkNewRisk loc t clockNow freshId actionIdGen todayStr imageData r).probability *
          (mkNewRisk loc t clockNow freshId actionIdGen todayStr imageData r).frequency *
          (mkNewRisk loc t clockNow freshId actionIdGen todayStr imageData r).severity :=
  ⟨by decide, fun loc t clockNow freshId actionIdGen todayStr imageData r => rfl⟩
